import Mathlib

/- Verification of the limage build-and-run tool (src/src/config.rs,
   src/src/runner.rs, src/src/builder.rs) against its specification.
   The Rust code is shallowly embedded: pure data manipulation becomes
   Lean functions; interactions with the OS (spawning processes, the
   filesystem) are modelled by explicit "world" records describing the
   outcome of each external interaction, and each pipeline function
   additionally returns the trace of external commands it issued. -/

set_option maxRecDepth 4000

/- ===================== config.rs ===================== -/

/-- Mirror of `Config` (config.rs lines 6-22).  `PathBuf` fields become
strings (only their rendered text is ever used); `u32`/`i32` become
`Nat`/`Int` with explicit wrapping where the Rust code casts. -/
structure Config where
  image_path : String
  build_command : List String
  run_command : List String
  run_args : Option (List String)
  test_args : Option (List String)
  test_timeout : Nat
  test_success_exit_code : Option Int
  test_no_reboot : Bool
  filesystem : Option String
  filesystem_builder : Option String
  filesystem_image : String
  filesystem_source_dir : String
  filesystem_target_dir : String
  deriving Repr, DecidableEq

/-- Mirror of `ConfigBuilder` (config.rs lines 116-131): every field
optional, `Default` gives all-`None`. -/
structure ConfigBuilder where
  image_path : Option String := none
  build_command : Option (List String) := none
  run_command : Option (List String) := none
  run_args : Option (List String) := none
  test_args : Option (List String) := none
  test_timeout : Option Nat := none
  test_success_exit_code : Option Int := none
  test_no_reboot : Option Bool := none
  filesystem : Option String := none
  filesystem_builder : Option String := none
  filesystem_image : Option String := none
  filesystem_source_dir : Option String := none
  filesystem_target_dir : Option String := none
  deriving Repr, DecidableEq

/-- Mirror of `impl Into<Config> for ConfigBuilder` (config.rs lines
133-159): each field defaults when unset.  Note `test_success_exit_code`
is passed through unchanged (no default of its own). -/
def configBuilderInto (b : ConfigBuilder) : Config :=
  { image_path := b.image_path.getD "target/kernel.iso"
    build_command := b.build_command.getD ["build"]
    run_command := b.run_command.getD
      ["qemu-system-x86_64",
       "-M", "q35",
       "-m", "2G",
       "-cdrom", "{}",
       "-drive", "if=pflash,unit=0,format=raw,file=target/ovmf/ovmf-code-x86_64.fd,readonly=on",
       "-drive", "if=pflash,unit=1,format=raw,file=target/ovmf/ovmf-vars-x86_64.fd"]
    run_args := b.run_args
    test_args := b.test_args
    test_timeout := b.test_timeout.getD (60 * 5)
    test_success_exit_code := b.test_success_exit_code
    test_no_reboot := b.test_no_reboot.getD true
    filesystem := b.filesystem
    filesystem_builder := b.filesystem_builder
    filesystem_image := b.filesystem_image.getD "target/fs.img"
    filesystem_source_dir := b.filesystem_source_dir.getD "tests/storage/*"
    filesystem_target_dir := b.filesystem_target_dir.getD "/test" }

/-- The all-defaults configuration, `ConfigBuilder::default().into()`. -/
def defaultConfig : Config := configBuilderInto {}

/-- The subset of TOML values the configuration parser inspects
(`toml::Value` in config.rs). -/
inductive TomlValue where
  | str (s : String)
  | int (i : Int)
  | bool (b : Bool)
  | arr (vs : List TomlValue)
  | other
  deriving Repr

/-- Mirror of `parse_string_array` (config.rs lines 105-114): every
element must be a string, otherwise the step errors. -/
def parse_string_array : List TomlValue → String → Except String (List String)
  | [], _ => .ok []
  | .str s :: rest, p =>
    (parse_string_array rest p).map (fun r => s :: r)
  | _ :: _, p => .error (p ++ " must be a list of strings")

/-- The `as u32` cast Rust applies to the 64-bit TOML integer for
`test-timeout` (config.rs line 66): wraps modulo 2^32. -/
def i64ToU32 (t : Int) : Nat := (t % (2 ^ 32)).toNat

/-- The `as i32` cast Rust applies for `test-success-exit-code`
(config.rs line 69): two's-complement wrap into the i32 range. -/
def i64ToI32 (t : Int) : Int := (t + 2 ^ 31) % 2 ^ 32 - 2 ^ 31

/-- One iteration of the key/value match loop in `read_config_inner`
(config.rs lines 57-101). -/
def applyKey (cb : ConfigBuilder) : String × TomlValue → Except String ConfigBuilder
  | ("image-path", .str p) => .ok { cb with image_path := some p }
  | ("test-timeout", .int t) =>
    if t < 0 then .error "test-timeout must not be negative"
    else .ok { cb with test_timeout := some (i64ToU32 t) }
  | ("test-success-exit-code", .int e) =>
    .ok { cb with test_success_exit_code := some (i64ToI32 e) }
  | ("build-command", .arr a) =>
    (parse_string_array a "build-command").map
      (fun l => { cb with build_command := some l })
  | ("run-command", .arr a) =>
    (parse_string_array a "run-command").map
      (fun l => { cb with run_command := some l })
  | ("run-args", .arr a) =>
    (parse_string_array a "run-args").map
      (fun l => { cb with run_args := some l })
  | ("test-args", .arr a) =>
    (parse_string_array a "test-args").map
      (fun l => { cb with test_args := some l })
  | ("test-no-reboot", .bool b) => .ok { cb with test_no_reboot := some b }
  | ("filesystem", .str s) => .ok { cb with filesystem := some s }
  | ("filesystem-builder", .str s) => .ok { cb with filesystem_builder := some s }
  | (k, _) => .error ("unexpected package.metadata.limage key " ++ k)

/-- The fold of `applyKey` over the metadata table entries. -/
def applyEntries (cb : ConfigBuilder) : List (String × TomlValue) → Except String ConfigBuilder
  | [] => .ok cb
  | e :: rest => (applyKey cb e).bind (fun cb2 => applyEntries cb2 rest)

/-- What `read_config_inner` finds in the manifest: an unreadable file,
a readable manifest without a `package.metadata.limage` table, or the
entries of that table (TOML tables iterate in key order; the entry list
stands for that iteration). -/
inductive ManifestSource where
  | unreadable
  | noLimageMetadata
  | limageTable (entries : List (String × TomlValue))

/-- Mirror of `read_config_inner` (config.rs lines 28-103): an
unreadable manifest is an error; a manifest without limage metadata
yields the all-defaults `Config`; otherwise the entries are folded. -/
def read_config_inner : ManifestSource → Except String Config
  | .unreadable => .error "Failed to open Cargo.toml"
  | .noLimageMetadata => .ok (configBuilderInto {})
  | .limageTable entries =>
    (applyEntries {} entries).map configBuilderInto

/- ===================== string replacement (runner.rs line 13) ===================== -/

/-- `str::replace("{}", v)` specialised to the two-character pattern the
runner actually uses (runner.rs line 13): left-to-right, non-overlapping
replacement of every occurrence of `\x7b\x7d`. -/
def replaceBracesWith (v : List Char) : List Char → List Char
  | [] => []
  | [c] => [c]
  | c1 :: c2 :: rest =>
    if c1 = '{' ∧ c2 = '}' then v ++ replaceBracesWith v rest
    else c1 :: replaceBracesWith v (c2 :: rest)

/-- String-level wrapper: `s.replace("{}", v)`. -/
def rustReplaceBraces (s v : String) : String :=
  String.mk (replaceBracesWith v.data s.data)

/-- The placeholder pattern, as a character list. -/
def phChars : List Char := ['{', '}']

/-- Spec-side join: `joinWith sep [s0, s1, ..., sn] = s0 ++ sep ++ s1 ++ ... ++ sn`. -/
def joinWith (sep : List Char) : List (List Char) → List Char
  | [] => []
  | [s] => s
  | s :: rest => s ++ sep ++ joinWith sep rest

/- ===================== runner.rs ===================== -/

/-- Mirror of `TestResult` (runner.rs lines 57-61). -/
inductive TestResult where
  | Success
  | Failure
  | Timeout
  deriving Repr, DecidableEq

/-- Mirror of `IoErrorContext` (runner.rs lines 104-120). -/
inductive IoErrorContext where
  | QemuRunCommand
  | QemuTestCommand
  | WaitWithTimeout
  | KillQemu
  | WaitForQemu
  deriving Repr, DecidableEq

/-- Mirror of `RunError` (runner.rs lines 92-102); the `io::Error`
payload carries no information the harness inspects and is dropped. -/
inductive RunError where
  | TestTimedOut
  | NoQemuExitCode
  | Io (context : IoErrorContext)
  deriving Repr, DecidableEq

/-- The exit-status classification at runner.rs lines 82-87: `Some(33)`
is success (hard-coded), `Some(0)` and every other `Some(_)` are
failure, a missing code is an error. -/
def classify_exit_code (code : Option Int) : Except RunError TestResult :=
  match code with
  | some c =>
    if c = 33 then .ok TestResult.Success        -- Success exit code
    else if c = 0 then .ok TestResult.Failure    -- Normal exit = test failure
    else .ok TestResult.Failure                  -- Any other exit code = failure
  | none => .error RunError.NoQemuExitCode

/-- Classification following the specification's words, for comparison
with `classify_exit_code`: compare the exit code against the
*configured* `success_exit_code`. -/
def classify_config_spec (success_exit_code code : Int) : TestResult :=
  if code = success_exit_code then TestResult.Success else TestResult.Failure

/-- The observable outcome of each OS interaction the supervised run
performs: whether `spawn` succeeds, whether `wait_timeout` returns
without an I/O error, whether the child exits before the deadline (and
with which `ExitStatus::code()`), and whether `kill`/`wait` succeed. -/
structure ProcessWorld where
  spawn_ok : Bool
  wait_timeout_ok : Bool
  exit_within_deadline : Option (Option Int)
  kill_ok : Bool
  wait_ok : Bool
  deriving Repr, DecidableEq

/-- Events of the supervised run, in the order the harness performs
them: spawning the child, the bounded wait, the kill, and the blocking
reaping `wait`. -/
inductive REvent where
  | spawn
  | waitTimeout (secs : Nat)
  | kill
  | reap
  deriving Repr, DecidableEq

/-- Mirror of `handle_test_execution` (runner.rs lines 63-90), returning
the trace of process interactions attempted alongside the result. -/
def handle_test_execution (w : ProcessWorld) (timeout_secs : Nat) :
    List REvent × Except RunError TestResult :=
  if w.spawn_ok then
    let tr := [REvent.spawn, REvent.waitTimeout timeout_secs]
    if w.wait_timeout_ok then
      match w.exit_within_deadline with
      | none =>
        if w.kill_ok then
          if w.wait_ok then
            (tr ++ [REvent.kill, REvent.reap], .ok TestResult.Timeout)
          else
            (tr ++ [REvent.kill, REvent.reap], .error (RunError.Io IoErrorContext.WaitForQemu))
        else (tr ++ [REvent.kill], .error (RunError.Io IoErrorContext.KillQemu))
      | some code => (tr, classify_exit_code code)
    else (tr, .error (RunError.Io IoErrorContext.WaitWithTimeout))
  else ([], .error (RunError.Io IoErrorContext.QemuTestCommand))

/-- The `TestResult` → exit-code mapping the caller applies
(runner.rs lines 36-43). -/
def testResultToExitCode : TestResult → Int
  | TestResult.Success => 0
  | TestResult.Failure => 1
  | TestResult.Timeout => 2

/-- Command assembly in `run` (runner.rs lines 10-30): substitute the
image path for `\x7b\x7d` in each configured argument, append the
filesystem drive arguments when a filesystem is configured, then the
mode-specific arguments. -/
def buildRunCommand (c : Config) (is_test : Bool) : List String :=
  let cmd0 := c.run_command.map (fun arg => rustReplaceBraces arg c.image_path)
  let cmd1 :=
    match c.filesystem with
    | some _ => cmd0 ++ ["-drive", "file=" ++ c.filesystem_image ++ ",format=raw"]
    | none => cmd0
  if is_test then
    let cmd2 := if c.test_no_reboot then cmd1 ++ ["-no-reboot"] else cmd1
    match c.test_args with
    | some args => cmd2 ++ args
    | none => cmd2
  else
    match c.run_args with
    | some args => cmd1 ++ args
    | none => cmd1

/-- OS outcomes for a whole `run` call: test-mode process behaviour plus
the normal-mode `status()` outcome. -/
structure RunWorld where
  proc : ProcessWorld
  normal_status_ok : Bool
  normal_exit_code : Option Int
  deriving Repr, DecidableEq

/-- Mirror of `run` (runner.rs lines 7-55): assemble the command, then
either supervise (test mode, mapping the `TestResult` to an exit code)
or block on `status()` and return `status.code().unwrap_or(1)`. -/
def run (w : RunWorld) (c : Config) (is_test : Bool) :
    List String × Except RunError Int :=
  let cmd := buildRunCommand c is_test
  if is_test then
    match (handle_test_execution w.proc c.test_timeout).2 with
    | .error e => (cmd, .error e)
    | .ok r => (cmd, .ok (testResultToExitCode r))
  else
    if w.normal_status_ok then
      (cmd, .ok (w.normal_exit_code.getD 1))
    else (cmd, .error (RunError.Io IoErrorContext.QemuRunCommand))

example : rustReplaceBraces "-cdrom={}" "IMG" = "-cdrom=IMG" := by decide
example : rustReplaceBraces "a{}b{}c" "X" = "aXbXc" := by decide
example : rustReplaceBraces "{image}" "X" = "{image}" := by decide
example : defaultConfig.test_timeout = 300 := by decide
example : defaultConfig.test_success_exit_code = none := rfl

/- ===================== builder.rs ===================== -/

/-- Mirror of `BuildError` (builder.rs lines 304-350), restricted to the
variants the modelled pipeline can produce. -/
inductive BuildError where
  | DownloadOvmfFirmwareFailed
  | CopyLimineConfigFailed
  | CopyLimineBinaryFailed
  | CreateLimineIsoFailed
  | CloneLimineBinaryFailed
  | CopyKernelBinaryFailed
  | CreateEmptyImgFailed
  | FormatImgFailed
  | AddImgDirectoryFailed
  | AddImgContentFailed
  | CreateDirectoryFailed
  | InstallLimineToIsoFailed
  deriving Repr, DecidableEq

/-- External commands the build pipeline spawns, in source order of the
invoking functions. -/
inductive Cmd where
  | curl (path : String)
  | gitClone
  | xorriso
  | limineInstall
  | fsBuilder (name : String)
  | dd
  | mkfsFat (fatArg : String)
  | mkfsExt4
  | mmd
  | mcopy
  | mountCmd
  | cpCmd
  | umountCmd
  deriving Repr, DecidableEq

/-- OS outcomes the build pipeline observes: which spawns succeed
(`.output()`/`.status()` only fail when the process cannot be launched;
exit statuses are never inspected by the Rust code), which files exist,
and what a fresh bootloader clone would put into `target/limine`.
`limine_files` is `none` when `./target/limine` does not exist, and
`some files` when it exists and holds exactly `files`. -/
structure BuildWorld where
  curl1_ok : Bool
  curl2_ok : Bool
  git_ok : Bool
  limine_files : Option (List String)
  cloned_files : List String
  limine_conf_exists : Bool
  kernel_exists : Bool
  xorriso_ok : Bool
  limine_install_ok : Bool
  fs_builder_ok : Bool
  dd_ok : Bool
  mkfs_fat_ok : Bool
  mkfs_ext4_ok : Bool
  mmd_ok : Bool
  mcopy_ok : Bool
  mount_ok : Bool
  cp_ok : Bool
  umount_ok : Bool
  deriving Repr, DecidableEq

/-- Mirror of `prepare_ovmf_files` (builder.rs lines 63-77): two `curl`
downloads; a spawn failure of either maps to
`DownloadOvmfFirmwareFailed`. -/
def prepare_ovmf_files (w : BuildWorld) : List Cmd × Except BuildError Unit :=
  let c1 := Cmd.curl "target/ovmf/ovmf-code-x86_64.fd"
  if w.curl1_ok then
    let c2 := Cmd.curl "target/ovmf/ovmf-vars-x86_64.fd"
    if w.curl2_ok then ([c1, c2], .ok ())
    else ([c1, c2], .error BuildError.DownloadOvmfFirmwareFailed)
  else ([c1], .error BuildError.DownloadOvmfFirmwareFailed)

/-- Mirror of `clone_limine_binary` (builder.rs lines 101-116): the
clone happens only when `./target/limine` does not exist; the middle
component is the directory contents the later copies read. -/
def clone_limine_binary (w : BuildWorld) :
    List Cmd × List String × Except BuildError Unit :=
  match w.limine_files with
  | none =>
    ([Cmd.gitClone], w.cloned_files,
      if w.git_ok then .ok () else .error BuildError.CloneLimineBinaryFailed)
  | some files => ([], files, .ok ())

/-- Mirror of `copy_limine_config` (builder.rs lines 118-123): the
`fs::copy` of `./limine.conf` fails when the source is missing. -/
def copy_limine_config (w : BuildWorld) : Except BuildError Unit :=
  if w.limine_conf_exists then .ok ()
  else .error BuildError.CopyLimineConfigFailed

/-- The five bootloader artifacts `copy_limine_binary` copies, in source
order (builder.rs lines 128-138). -/
def requiredLimineFiles : List String :=
  ["limine-bios.sys", "limine-bios-cd.bin", "limine-uefi-cd.bin",
   "BOOTX64.EFI", "BOOTIA32.EFI"]

/-- One `fs::copy` out of `target/limine`: fails when the source file is
absent, with `CopyLimineBinaryFailed`. -/
def copyOne (files : List String) (name : String) : Except BuildError Unit :=
  if name ∈ files then .ok () else .error BuildError.CopyLimineBinaryFailed

/-- Mirror of `copy_limine_binary` (builder.rs lines 125-140): the five
copies in sequence, aborting at the first missing source. -/
def copy_limine_binary (files : List String) : Except BuildError Unit :=
  (copyOne files "limine-bios.sys").bind fun _ =>
  (copyOne files "limine-bios-cd.bin").bind fun _ =>
  (copyOne files "limine-uefi-cd.bin").bind fun _ =>
  (copyOne files "BOOTX64.EFI").bind fun _ =>
  copyOne files "BOOTIA32.EFI"

/-- Mirror of `prepare_limine_files` (builder.rs lines 90-99): clone (if
needed), copy the config, copy the binaries. -/
def prepare_limine_files (w : BuildWorld) : List Cmd × Except BuildError Unit :=
  match clone_limine_binary w with
  | (tr, _, .error e) => (tr, .error e)
  | (tr, files, .ok ()) =>
    match copy_limine_config w with
    | .error e => (tr, .error e)
    | .ok () => (tr, copy_limine_binary files)

/-- Mirror of `copy_kernel` (builder.rs lines 142-160): copying the
kernel binary fails when the source is missing. -/
def copy_kernel (w : BuildWorld) : Except BuildError Unit :=
  if w.kernel_exists then .ok ()
  else .error BuildError.CopyKernelBinaryFailed

/-- Mirror of `create_limine_iso` = `create_raw_iso` then
`install_limine_to_iso` (builder.rs lines 162-199): `xorriso` spawn
failure maps to `CreateLimineIsoFailed`, the install utility's to
`InstallLimineToIsoFailed`. -/
def create_limine_iso (w : BuildWorld) : List Cmd × Except BuildError Unit :=
  if w.xorriso_ok then
    if w.limine_install_ok then ([Cmd.xorriso, Cmd.limineInstall], .ok ())
    else ([Cmd.xorriso, Cmd.limineInstall], .error BuildError.InstallLimineToIsoFailed)
  else ([Cmd.xorriso], .error BuildError.CreateLimineIsoFailed)

/-- `String::to_uppercase` restricted to the ASCII names the pipeline
compares. -/
def rustToUppercase (s : String) : String := String.mk (s.data.map Char.toUpper)

/-- ASCII-prefix test used to embed `str::starts_with`. -/
def isPrefixOfCh : List Char → List Char → Bool
  | [], _ => true
  | _ :: _, [] => false
  | a :: as, b :: bs => a == b && isPrefixOfCh as bs

/-- The `-F` argument selection in `build_filesystem_fat`
(builder.rs lines 234-239). -/
def fatTypeArg (fsU : String) : String :=
  if fsU = "FAT12" then "-F 12"
  else if fsU = "FAT16" then "-F 16"
  else if fsU = "FAT32" then "-F 32"
  else "-F 32"

/-- Mirror of `build_filesystem_fat` (builder.rs lines 233-265).  The
`mkfs.fat` call's result is discarded by
`.map_err(..).unwrap_or(ExitStatus::default())`, so even a spawn failure
is swallowed; `mmd` and `mcopy` spawn failures are fatal. -/
def build_filesystem_fat (w : BuildWorld) (c : Config) :
    List Cmd × Except BuildError Unit :=
  let fsU := rustToUppercase (c.filesystem.getD "")
  let tr := [Cmd.mkfsFat (fatTypeArg fsU)]
  if w.mmd_ok then
    if w.mcopy_ok then (tr ++ [Cmd.mmd, Cmd.mcopy], .ok ())
    else (tr ++ [Cmd.mmd, Cmd.mcopy], .error BuildError.AddImgContentFailed)
  else (tr ++ [Cmd.mmd], .error BuildError.AddImgDirectoryFailed)

/-- Mirror of `build_filesystem_ext4` (builder.rs lines 267-301): all
four commands run with `.status().map_err(..).unwrap_or(..)`, so every
failure is swallowed and the step always succeeds. -/
def build_filesystem_ext4 (_w : BuildWorld) (_c : Config) :
    List Cmd × Except BuildError Unit :=
  ([Cmd.mkfsExt4, Cmd.mountCmd, Cmd.cpCmd, Cmd.umountCmd], .ok ())

/-- Mirror of `build_filesystem` (builder.rs lines 201-231): optional
filesystem-builder command (spawn failure maps to
`CreateDirectoryFailed`), `dd` (spawn failure maps to
`CreateEmptyImgFailed`), then dispatch on the uppercased filesystem
name; names that are neither `FAT*` nor `EXT4` are `FormatImgFailed`. -/
def build_filesystem (w : BuildWorld) (c : Config) :
    List Cmd × Except BuildError Unit :=
  let pbTrace : List Cmd :=
    match c.filesystem_builder with
    | some b => [Cmd.fsBuilder b]
    | none => []
  if c.filesystem_builder.isSome ∧ w.fs_builder_ok = false then
    (pbTrace, .error BuildError.CreateDirectoryFailed)
  else if w.dd_ok then
    let fsU := rustToUppercase (c.filesystem.getD "")
    if isPrefixOfCh "FAT".data fsU.data then
      match build_filesystem_fat w c with
      | (tr, r) => (pbTrace ++ [Cmd.dd] ++ tr, r)
    else if fsU = "EXT4" then
      match build_filesystem_ext4 w c with
      | (tr, r) => (pbTrace ++ [Cmd.dd] ++ tr, r)
    else (pbTrace ++ [Cmd.dd], .error BuildError.FormatImgFailed)
  else (pbTrace ++ [Cmd.dd], .error BuildError.CreateEmptyImgFailed)

/-- Mirror of `Builder::build` (builder.rs lines 50-61): the five
pipeline stages in order, accumulating the trace of external commands,
aborting at the first error, returning exit code 0 on success. -/
def Builder_build (w : BuildWorld) (c : Config) :
    List Cmd × Except BuildError Int :=
  match prepare_ovmf_files w with
  | (t1, .error e) => (t1, .error e)
  | (t1, .ok ()) =>
    match prepare_limine_files w with
    | (t2, .error e) => (t1 ++ t2, .error e)
    | (t2, .ok ()) =>
      match copy_kernel w with
      | .error e => (t1 ++ t2, .error e)
      | .ok () =>
        match create_limine_iso w with
        | (t3, .error e) => (t1 ++ t2 ++ t3, .error e)
        | (t3, .ok ()) =>
          match c.filesystem with
          | some _ =>
            match build_filesystem w c with
            | (t4, .error e) => (t1 ++ t2 ++ t3 ++ t4, .error e)
            | (t4, .ok ()) => (t1 ++ t2 ++ t3 ++ t4, .ok 0)
          | none => (t1 ++ t2 ++ t3, .ok 0)

/-- A build world in which every interaction succeeds and the bootloader
directory is absent (so the clone path runs and yields the required
files). -/
def baseWorld : BuildWorld :=
  { curl1_ok := true
    curl2_ok := true
    git_ok := true
    limine_files := some requiredLimineFiles
    cloned_files := requiredLimineFiles
    limine_conf_exists := true
    kernel_exists := true
    xorriso_ok := true
    limine_install_ok := true
    fs_builder_ok := true
    dd_ok := true
    mkfs_fat_ok := true
    mkfs_ext4_ok := true
    mmd_ok := true
    mcopy_ok := true
    mount_ok := true
    cp_ok := true
    umount_ok := true }

/-- `baseWorld` with the bootloader directory absent. -/
def freshWorld : BuildWorld := { baseWorld with limine_files := none }

example :
    Builder_build freshWorld defaultConfig =
      ([Cmd.curl "target/ovmf/ovmf-code-x86_64.fd",
        Cmd.curl "target/ovmf/ovmf-vars-x86_64.fd",
        Cmd.gitClone, Cmd.xorriso, Cmd.limineInstall], .ok 0) := rfl

example :
    Builder_build freshWorld { defaultConfig with filesystem := some "FAT32" } =
      ([Cmd.curl "target/ovmf/ovmf-code-x86_64.fd",
        Cmd.curl "target/ovmf/ovmf-vars-x86_64.fd",
        Cmd.gitClone, Cmd.xorriso, Cmd.limineInstall,
        Cmd.dd, Cmd.mkfsFat "-F 32", Cmd.mmd, Cmd.mcopy], .ok 0) := rfl

/- ===================== concrete inputs used by the claims ===================== -/

instance {ε α : Type} [DecidableEq ε] [DecidableEq α] : DecidableEq (Except ε α) :=
  fun a b =>
    match a, b with
    | .ok x, .ok y =>
      if h : x = y then .isTrue (by rw [h]) else .isFalse (by intro hc; cases hc; exact h rfl)
    | .error x, .error y =>
      if h : x = y then .isTrue (by rw [h]) else .isFalse (by intro hc; cases hc; exact h rfl)
    | .ok _, .error _ => .isFalse (by intro hc; cases hc)
    | .error _, .ok _ => .isFalse (by intro hc; cases hc)

/-- A supervised-run world whose child exits in time with code 42. -/
def pwExit42 : ProcessWorld :=
  { spawn_ok := true, wait_timeout_ok := true,
    exit_within_deadline := some (some 42), kill_ok := true, wait_ok := true }

/-- A supervised-run world whose child never exits before the deadline
and whose kill and reap succeed. -/
def pwTimeout : ProcessWorld :=
  { spawn_ok := true, wait_timeout_ok := true,
    exit_within_deadline := none, kill_ok := true, wait_ok := true }

/-- A normal-mode world whose emulator exits with code 5. -/
def rwNormal5 : RunWorld :=
  { proc := pwTimeout, normal_status_ok := true, normal_exit_code := some 5 }

/-- A normal-mode world whose emulator terminates without an exit code
(killed by a signal). -/
def rwNormalNone : RunWorld :=
  { proc := pwTimeout, normal_status_ok := true, normal_exit_code := none }

/-- The default configuration with a FAT32 payload filesystem. -/
def cfgFat : Config := { defaultConfig with filesystem := some "FAT32" }

/-- The default configuration with an ext4 payload filesystem
(lower-case, exercising `to_uppercase`). -/
def cfgExt4 : Config := { defaultConfig with filesystem := some "ext4" }

/-- Default configuration with both a filesystem-builder hook and a
payload filesystem configured. -/
def cfgPBfs : Config :=
  { defaultConfig with filesystem := some "FAT32",
                       filesystem_builder := some "prebuild.sh" }

/-- Default configuration with a filesystem-builder hook but no payload
filesystem. -/
def cfgPBonly : Config :=
  { defaultConfig with filesystem_builder := some "prebuild.sh" }

/-- Configuration whose run command uses the spec's placeholder names
instead of the implemented `\x7b\x7d`. -/
def cfgPh : Config := { defaultConfig with run_command := ["{image}", "{ovmf}"] }

/-- Small configuration for evaluating substitution concretely. -/
def cfgC6w : Config :=
  { defaultConfig with run_command := ["-cdrom", "{}"], image_path := "IMG" }

/-- A `target/limine` directory that is present but missing the
`limine-bios.sys` artifact. -/
def missingBiosFiles : List String :=
  ["limine-bios-cd.bin", "limine-uefi-cd.bin", "BOOTX64.EFI", "BOOTIA32.EFI"]

/-- The first and second firmware download commands. -/
def curl1Cmd : Cmd := Cmd.curl "target/ovmf/ovmf-code-x86_64.fd"

/-- The second firmware download command. -/
def curl2Cmd : Cmd := Cmd.curl "target/ovmf/ovmf-vars-x86_64.fd"

/-- Which single external spawn fails during a FAT32 build from a fresh
checkout (`noFail` = none of them). -/
inductive FailPoint where
  | noFail
  | curl1
  | curl2
  | git
  | xorriso
  | install
  | ddFail
  | mkfs
  | mmdFail
  | mcopyFail
  deriving Repr, DecidableEq

/-- The fresh-checkout world with the chosen spawn failing. -/
def failWorld : FailPoint → BuildWorld
  | .noFail => freshWorld
  | .curl1 => { freshWorld with curl1_ok := false }
  | .curl2 => { freshWorld with curl2_ok := false }
  | .git => { freshWorld with git_ok := false }
  | .xorriso => { freshWorld with xorriso_ok := false }
  | .install => { freshWorld with limine_install_ok := false }
  | .ddFail => { freshWorld with dd_ok := false }
  | .mkfs => { freshWorld with mkfs_fat_ok := false }
  | .mmdFail => { freshWorld with mmd_ok := false }
  | .mcopyFail => { freshWorld with mcopy_ok := false }

/-- The commands a FAT32 build issues up to (and including) the failing
spawn; when `mkfs.fat` fails to spawn the pipeline nevertheless runs to
the end. -/
def expectedTrace : FailPoint → List Cmd
  | .noFail => [curl1Cmd, curl2Cmd, Cmd.gitClone, Cmd.xorriso, Cmd.limineInstall,
                Cmd.dd, Cmd.mkfsFat "-F 32", Cmd.mmd, Cmd.mcopy]
  | .curl1 => [curl1Cmd]
  | .curl2 => [curl1Cmd, curl2Cmd]
  | .git => [curl1Cmd, curl2Cmd, Cmd.gitClone]
  | .xorriso => [curl1Cmd, curl2Cmd, Cmd.gitClone, Cmd.xorriso]
  | .install => [curl1Cmd, curl2Cmd, Cmd.gitClone, Cmd.xorriso, Cmd.limineInstall]
  | .ddFail => [curl1Cmd, curl2Cmd, Cmd.gitClone, Cmd.xorriso, Cmd.limineInstall, Cmd.dd]
  | .mkfs => [curl1Cmd, curl2Cmd, Cmd.gitClone, Cmd.xorriso, Cmd.limineInstall,
              Cmd.dd, Cmd.mkfsFat "-F 32", Cmd.mmd, Cmd.mcopy]
  | .mmdFail => [curl1Cmd, curl2Cmd, Cmd.gitClone, Cmd.xorriso, Cmd.limineInstall,
                 Cmd.dd, Cmd.mkfsFat "-F 32", Cmd.mmd]
  | .mcopyFail => [curl1Cmd, curl2Cmd, Cmd.gitClone, Cmd.xorriso, Cmd.limineInstall,
                   Cmd.dd, Cmd.mkfsFat "-F 32", Cmd.mmd, Cmd.mcopy]

/-- The corresponding build outcomes: each fatal spawn failure maps to
its step-specific error; the `mkfs.fat` spawn failure is swallowed. -/
def expectedResult : FailPoint → Except BuildError Int
  | .noFail => .ok 0
  | .curl1 => .error BuildError.DownloadOvmfFirmwareFailed
  | .curl2 => .error BuildError.DownloadOvmfFirmwareFailed
  | .git => .error BuildError.CloneLimineBinaryFailed
  | .xorriso => .error BuildError.CreateLimineIsoFailed
  | .install => .error BuildError.InstallLimineToIsoFailed
  | .ddFail => .error BuildError.CreateEmptyImgFailed
  | .mkfs => .ok 0
  | .mmdFail => .error BuildError.AddImgDirectoryFailed
  | .mcopyFail => .error BuildError.AddImgContentFailed

/-- Recogniser for the filesystem-builder hook command in a trace. -/
def isFsBuilderCmd : Cmd → Bool
  | .fsBuilder _ => true
  | _ => false

/-- Mode-specific argument tail of the run command, per the source's
test/normal branches (runner.rs lines 21-30). -/
def modeArgsSpec (c : Config) (is_test : Bool) : List String :=
  if is_test then
    (if c.test_no_reboot then ["-no-reboot"] else []) ++ c.test_args.getD []
  else c.run_args.getD []

/- ===================== helper lemmas ===================== -/

theorem classify_ne_timeout (code : Option Int) :
    classify_exit_code code ≠ .ok TestResult.Timeout := by
  cases code with
  | none => simp [classify_exit_code]
  | some c =>
    simp only [classify_exit_code]
    split_ifs <;> simp

theorem not_infix_tail {c : Char} {s : List Char}
    (h : ¬ phChars <:+: (c :: s)) : ¬ phChars <:+: s :=
  fun h2 => h (h2.trans (List.suffix_cons c s).isInfix)

theorem not_braces_head {c1 c2 : Char} {s : List Char}
    (h : ¬ phChars <:+: (c1 :: c2 :: s)) : ¬ (c1 = '{' ∧ c2 = '}') := by
  rintro ⟨h1, h2⟩
  exact h ⟨[], s, by simp [phChars, h1, h2]⟩

theorem replace_no_occurrence (v : List Char) :
    ∀ s : List Char, ¬ phChars <:+: s → replaceBracesWith v s = s := by
  intro s
  induction s with
  | nil => intro _; rfl
  | cons c rest ih =>
    intro h
    cases rest with
    | nil => rfl
    | cons c2 rest2 =>
      rw [replaceBracesWith, if_neg (not_braces_head h), ih (not_infix_tail h)]

theorem replace_boundary (v t : List Char) :
    ∀ s : List Char, ¬ phChars <:+: s →
      replaceBracesWith v (s ++ '{' :: '}' :: t) = s ++ v ++ replaceBracesWith v t := by
  intro s
  induction s with
  | nil =>
    intro _
    simp only [List.nil_append]
    rw [replaceBracesWith, if_pos ⟨rfl, rfl⟩]
  | cons c rest ih =>
    intro h
    cases rest with
    | nil =>
      simp only [List.cons_append, List.nil_append]
      rw [replaceBracesWith, if_neg (by rintro ⟨_, hc⟩; exact absurd hc (by decide)),
        replaceBracesWith, if_pos ⟨rfl, rfl⟩]
    | cons c2 rest2 =>
      simp only [List.cons_append]
      rw [replaceBracesWith, if_neg (not_braces_head h)]
      have := ih (not_infix_tail h)
      simp only [List.cons_append] at this
      rw [this]

theorem replace_joinWith (v : List Char) :
    ∀ segs : List (List Char), (∀ s ∈ segs, ¬ phChars <:+: s) →
      replaceBracesWith v (joinWith phChars segs) = joinWith v segs := by
  intro segs
  induction segs with
  | nil => intro _; rfl
  | cons s rest ih =>
    intro h
    cases rest with
    | nil => exact replace_no_occurrence v s (h s (List.mem_cons_self s []))
    | cons s2 rest2 =>
      have hs : ¬ phChars <:+: s := h s (List.mem_cons_self s _)
      have hrest : ∀ x ∈ s2 :: rest2, ¬ phChars <:+: x :=
        fun x hx => h x (List.mem_cons_of_mem s hx)
      have hgoalL :
          joinWith phChars (s :: s2 :: rest2)
            = s ++ '{' :: '}' :: joinWith phChars (s2 :: rest2) := by
        rw [show joinWith phChars (s :: s2 :: rest2)
              = s ++ phChars ++ joinWith phChars (s2 :: rest2) from rfl]
        simp [phChars]
      rw [hgoalL, replace_boundary v (joinWith phChars (s2 :: rest2)) s hs, ih hrest]
      rfl

theorem copy_limine_binary_eq (files : List String) :
    copy_limine_binary files =
      if ∀ f ∈ requiredLimineFiles, f ∈ files then .ok ()
      else .error BuildError.CopyLimineBinaryFailed := by
  unfold copy_limine_binary copyOne requiredLimineFiles
  by_cases h1 : "limine-bios.sys" ∈ files <;>
  by_cases h2 : "limine-bios-cd.bin" ∈ files <;>
  by_cases h3 : "limine-uefi-cd.bin" ∈ files <;>
  by_cases h4 : "BOOTX64.EFI" ∈ files <;>
  by_cases h5 : "BOOTIA32.EFI" ∈ files <;>
  simp [h1, h2, h3, h4, h5, Except.bind]

/- ===================== claim theorems ===================== -/

/-- Claim C1 (code_bug evidence): the supervised classification is NOT a
comparison against the configured `success_exit_code` — the constant 33
is hard-coded in `handle_test_execution`, which never receives the
configuration.  A child exiting with code 42 is classified `Failure`
even though the spec-side classification with `success_exit_code = 42`
yields `Success`; and 33 is classified `Success` no matter what. -/
theorem C1_success_code_hardcoded :
    (handle_test_execution pwExit42 300).2 = .ok TestResult.Failure
    ∧ classify_config_spec 42 42 = TestResult.Success
    ∧ (handle_test_execution { pwExit42 with exit_within_deadline := some (some 33) } 300).2
        = .ok TestResult.Success := by
  refine ⟨rfl, rfl, rfl⟩

/-- Claim C2: whenever the supervised run reports `Timeout`, the trace
of process interactions is exactly spawn, bounded wait, kill, then the
blocking reap — so the kill was issued and the process reaped before
`Timeout` is returned. -/
theorem C2_kill_then_reap_before_timeout (w : ProcessWorld) (t : Nat)
    (h : (handle_test_execution w t).2 = .ok TestResult.Timeout) :
    (handle_test_execution w t).1
      = [REvent.spawn, REvent.waitTimeout t, REvent.kill, REvent.reap] := by
  obtain ⟨s, wt, ex, k, wa⟩ := w
  cases s <;> cases wt <;> cases k <;> cases wa <;> cases ex <;>
    simp_all [handle_test_execution] <;>
    exact absurd h (classify_ne_timeout _)

/-- Witness for C2 at a concrete world that times out. -/
theorem C2_witness :
    (handle_test_execution pwTimeout 1).2 = .ok TestResult.Timeout
    ∧ (handle_test_execution pwTimeout 1).1
        = [REvent.spawn, REvent.waitTimeout 1, REvent.kill, REvent.reap] :=
  ⟨rfl, C2_kill_then_reap_before_timeout pwTimeout 1 rfl⟩

/-- Claim C3: the caller's mapping from `TestResult` to process exit
code is exactly Success → 0, Failure → 1, Timeout → 2, and no other
value is possible. -/
theorem C3_result_exit_code_mapping :
    testResultToExitCode TestResult.Success = 0
    ∧ testResultToExitCode TestResult.Failure = 1
    ∧ testResultToExitCode TestResult.Timeout = 2
    ∧ ∀ r : TestResult,
        testResultToExitCode r = 0 ∨ testResultToExitCode r = 1 ∨ testResultToExitCode r = 2 := by
  refine ⟨rfl, rfl, rfl, ?_⟩
  intro r
  cases r <;> simp [testResultToExitCode]

/-- Claim C4 (counterexample): with `target/limine` present but missing
the required `limine-bios.sys`, the bootloader step issues NO clone (and
no purge) — it fails in the copy step instead of re-cloning. -/
theorem C4_counterexample :
    prepare_limine_files { baseWorld with limine_files := some missingBiosFiles }
      = ([], .error BuildError.CopyLimineBinaryFailed) := rfl

/-- Claim C4 (amended): the cache signal is solely the existence of the
`target/limine` directory: whenever it exists, zero external commands
(in particular zero clones) are issued regardless of its contents; when
it is absent, exactly one clone is issued; and when it exists but lacks
a required artifact, the step fails with `CopyLimineBinaryFailed`
without purging or re-cloning. -/
theorem C4_cache_on_directory_existence (files : List String) :
    (prepare_limine_files { baseWorld with limine_files := some files }).1 = []
    ∧ (prepare_limine_files freshWorld).1 = [Cmd.gitClone]
    ∧ ((∃ f ∈ requiredLimineFiles, f ∉ files) →
        (prepare_limine_files { baseWorld with limine_files := some files }).2
          = .error BuildError.CopyLimineBinaryFailed) := by
  refine ⟨rfl, rfl, ?_⟩
  rintro ⟨f, hf, hnf⟩
  have hrw : (prepare_limine_files { baseWorld with limine_files := some files }).2
      = copy_limine_binary files := rfl
  rw [hrw, copy_limine_binary_eq, if_neg]
  intro hall
  exact hnf (hall f hf)

/-- Witness for C4's amended theorem at the concrete incomplete
directory. -/
theorem C4_witness :
    (prepare_limine_files { baseWorld with limine_files := some missingBiosFiles }).2
      = .error BuildError.CopyLimineBinaryFailed :=
  (C4_cache_on_directory_existence missingBiosFiles).2.2 (by decide)

/-- Claim C5 (counterexample): with a FAT32 payload configured, a
failure of the `mkfs.fat` format command raises no error at all — the
build still returns exit code 0 and the subsequent `mmd` populate step
still runs, because the Rust code discards the command's result with
`unwrap_or(ExitStatus::default())`. -/
theorem C5_counterexample :
    (Builder_build { freshWorld with mkfs_fat_ok := false } cfgFat).2 = .ok 0
    ∧ Cmd.mmd ∈ (Builder_build { freshWorld with mkfs_fat_ok := false } cfgFat).1 := by
  refine ⟨rfl, by decide⟩

/-- Claim C5 (amended): for a fresh FAT32 build, a spawn failure of the
download, clone, ISO-mastering, bootloader-install, payload-creation
(`dd`), directory-add (`mmd`) or content-copy (`mcopy`) command raises
the step-specific `BuildError` and stops the pipeline at that command
(per the trace/outcome tables), with no retry; the payload-format
commands are the exception — `mkfs.fat` failure is swallowed and the
pipeline continues to completion, and in the ext4 path all four of
`mkfs.ext4`, `mount`, `cp`, `umount` are swallowed likewise. -/
theorem C5_step_errors_abort_except_format :
    (∀ p : FailPoint, Builder_build (failWorld p) cfgFat = (expectedTrace p, expectedResult p))
    ∧ (∀ b1 b2 b3 b4 : Bool,
        (Builder_build
          { freshWorld with mkfs_ext4_ok := b1, mount_ok := b2, cp_ok := b3, umount_ok := b4 }
          cfgExt4).2 = .ok 0) := by
  constructor
  · intro p
    cases p <;> rfl
  · intro b1 b2 b3 b4
    rfl

/-- Claim C7 (counterexample): with the hook configured but no
filesystem, the build never runs the hook at all; with both configured,
the hook runs only inside the filesystem step — after the firmware,
bootloader, and ISO commands — not before every other step. -/
theorem C7_counterexample :
    (Builder_build freshWorld cfgPBonly).1.all (fun c => !isFsBuilderCmd c) = true
    ∧ (Builder_build freshWorld cfgPBfs).1
        = [curl1Cmd, curl2Cmd, Cmd.gitClone, Cmd.xorriso, Cmd.limineInstall,
           Cmd.fsBuilder "prebuild.sh", Cmd.dd, Cmd.mkfsFat "-F 32", Cmd.mmd, Cmd.mcopy] := by
  refine ⟨by decide, rfl⟩

/-- Claim C7 (amended): the `filesystem_builder` hook runs only when a
payload filesystem is also configured, and then at the start of the
filesystem step — after firmware download, bootloader acquisition, and
ISO mastering; a spawn failure of the hook aborts the build with
`CreateDirectoryFailed` (it is not downgraded to a warning); its exit
status is never inspected; without a configured filesystem the hook is
a no-op whatever its outcome would be. -/
theorem C7_hook_runs_inside_filesystem_step :
    (Builder_build freshWorld cfgPBfs).1
      = [curl1Cmd, curl2Cmd, Cmd.gitClone, Cmd.xorriso, Cmd.limineInstall,
         Cmd.fsBuilder "prebuild.sh", Cmd.dd, Cmd.mkfsFat "-F 32", Cmd.mmd, Cmd.mcopy]
    ∧ Builder_build { freshWorld with fs_builder_ok := false } cfgPBfs
        = ([curl1Cmd, curl2Cmd, Cmd.gitClone, Cmd.xorriso, Cmd.limineInstall,
            Cmd.fsBuilder "prebuild.sh"], .error BuildError.CreateDirectoryFailed)
    ∧ (Builder_build freshWorld cfgPBonly).1.all (fun c => !isFsBuilderCmd c) = true
    ∧ ∀ b : Bool,
        Builder_build { freshWorld with fs_builder_ok := b } cfgPBonly
          = Builder_build freshWorld cfgPBonly := by
  refine ⟨rfl, rfl, by decide, ?_⟩
  intro b
  cases b <;> rfl

/-- Claim C6 (counterexample): command assembly does not recognise the
placeholders named in the claim — an argument list consisting of
`"{image}"` and `"{ovmf}"` is passed through completely unchanged,
rather than having `{image}` replaced by the resolved image path
(`target/kernel.iso` here). -/
theorem C6_counterexample :
    buildRunCommand cfgPh false = ["{image}", "{ovmf}"]
    ∧ cfgPh.image_path = "target/kernel.iso"
    ∧ (["{image}", "{ovmf}"] : List String) ≠ ["target/kernel.iso", "target/ovmf"] := by
  refine ⟨rfl, rfl, by decide⟩

/-- Claim C6 (amended): the only placeholder is the two-character token
`\x7b\x7d`, replaced by the resolved image path: for any argument list in
which each argument is a `\x7b\x7d`-free segment list joined by the
placeholder (zero or more occurrences, several per argument allowed),
assembly yields exactly the same segments joined by the image path —
order preserved and all other characters and arguments unchanged.  There
is no `{ovmf}` placeholder. -/
theorem C6_braces_substitution (c : Config) (segss : List (List (List Char)))
    (h1 : c.run_command = segss.map (fun segs => String.mk (joinWith phChars segs)))
    (h2 : ∀ segs ∈ segss, ∀ s ∈ segs, ¬ phChars <:+: s)
    (h3 : c.filesystem = none) :
    buildRunCommand c false
      = segss.map (fun segs => String.mk (joinWith c.image_path.data segs))
        ++ c.run_args.getD [] := by
  have hmap : c.run_command.map (fun arg => rustReplaceBraces arg c.image_path)
      = segss.map (fun segs => String.mk (joinWith c.image_path.data segs)) := by
    rw [h1, List.map_map]
    refine List.map_congr_left ?_
    intro segs hsegs
    show String.mk (replaceBracesWith c.image_path.data (joinWith phChars segs))
      = String.mk (joinWith c.image_path.data segs)
    rw [replace_joinWith c.image_path.data segs (h2 segs hsegs)]
  unfold buildRunCommand
  rw [h3]
  simp only [Bool.false_eq_true, if_false]
  rw [hmap]
  cases hra : c.run_args <;> simp [hra]

/-- Witness for C6's amended theorem: `["-cdrom", "{}"]` with image path
`IMG` renders to `["-cdrom", "IMG"]`. -/
theorem C6_witness : buildRunCommand cfgC6w false = ["-cdrom", "IMG"] := by
  refine (C6_braces_substitution cfgC6w
    [[['-', 'c', 'd', 'r', 'o', 'm']], [[], []]] ?_ ?_ rfl).trans (by decide)
  · decide
  · decide

/-- Claim C8 (counterexample): a missing manifest file makes
configuration loading fail (it does not fall back to defaults), and the
all-defaults `Config` leaves `test_success_exit_code` unset rather than
33. -/
theorem C8_counterexample :
    read_config_inner ManifestSource.unreadable = .error "Failed to open Cargo.toml"
    ∧ read_config_inner ManifestSource.noLimageMetadata = .ok defaultConfig
    ∧ defaultConfig.test_success_exit_code = none := by
  refine ⟨rfl, rfl, rfl⟩

/-- Claim C8 (amended): when the manifest is readable but carries no
limage metadata, loading succeeds with the all-defaults `Config`, whose
`image_path` is `target/kernel.iso` and whose test timeout is 300
seconds; `test_success_exit_code` defaults to `none` (the success code
33 is hard-coded in the runner, not stored in the `Config`); an
unreadable manifest is an error, not a default. -/
theorem C8_defaults :
    read_config_inner ManifestSource.noLimageMetadata = .ok defaultConfig
    ∧ defaultConfig.image_path = "target/kernel.iso"
    ∧ defaultConfig.test_timeout = 300
    ∧ defaultConfig.test_success_exit_code = none
    ∧ read_config_inner ManifestSource.unreadable = .error "Failed to open Cargo.toml" := by
  refine ⟨rfl, rfl, by decide, rfl, rfl⟩

/-- Claim C9: in normal mode with a successful blocking wait, the
runner returns the emulator's exit code verbatim, and the fixed fallback
1 when the exit code is unavailable. -/
theorem C9_normal_mode_exit_code (w : RunWorld) (c : Config)
    (h : w.normal_status_ok = true) :
    (∀ code : Int, w.normal_exit_code = some code → (run w c false).2 = .ok code)
    ∧ (w.normal_exit_code = none → (run w c false).2 = .ok 1) := by
  constructor
  · intro code hc
    simp [run, h, hc]
  · intro hc
    simp [run, h, hc]

/-- Witness for C9 at concrete worlds: exit code 5 passes through, a
missing code becomes 1. -/
theorem C9_witness :
    (run rwNormal5 defaultConfig false).2 = .ok 5
    ∧ (run rwNormalNone defaultConfig false).2 = .ok 1 :=
  ⟨(C9_normal_mode_exit_code rwNormal5 defaultConfig rfl).1 5 rfl,
   (C9_normal_mode_exit_code rwNormalNone defaultConfig rfl).2 rfl⟩

/-- Claim C10: whenever a filesystem is configured, the assembled
command is exactly the substituted base command, then the two drive
arguments for the filesystem image, then the mode-specific tail
(no-reboot flag and test args, or run args) — in both modes. -/
theorem C10_filesystem_drive_args (c : Config) (is_test : Bool) (fs : String)
    (h : c.filesystem = some fs) :
    buildRunCommand c is_test
      = c.run_command.map (fun arg => rustReplaceBraces arg c.image_path)
        ++ ["-drive", "file=" ++ c.filesystem_image ++ ",format=raw"]
        ++ modeArgsSpec c is_test := by
  unfold buildRunCommand modeArgsSpec
  rw [h]
  cases is_test <;> cases hnr : c.test_no_reboot <;>
    cases hta : c.test_args <;> cases hra : c.run_args <;>
    simp [hnr, hta, hra, List.append_assoc]

/-- Witness for C10 at the concrete FAT32 configuration in test mode. -/
theorem C10_witness :
    buildRunCommand cfgFat true
      = cfgFat.run_command.map (fun arg => rustReplaceBraces arg cfgFat.image_path)
        ++ ["-drive", "file=" ++ cfgFat.filesystem_image ++ ",format=raw"]
        ++ modeArgsSpec cfgFat true :=
  C10_filesystem_drive_args cfgFat true "FAT32" rfl
